import Mathlib

/-!
Verification development for the things3-workflow importer plugin.

The TypeScript sources are shallowly embedded here:
* `convertThingsDate` / `getYYYYMMDD` from `noteWriterService.ts`,
* `Things3Service.prepareFilters` / `getTasks` from `things3Service.ts`,
* `NoteWriterService.prepareFilePath` / `isValidFilePath` / `writeNote`,
* `CacheService` (both as a plain association map and as a heap model
  capturing JavaScript reference semantics of its shallow copies),
* `DbPathService` from `dbPathService.ts`,
* `runImporter` / `rebuildCacheOnly` from the importer service.

JavaScript numbers are modelled as exact rationals `n / d` (`JsNumber`),
strings as Lean strings manipulated through their character lists, and the
host platform (filesystem, vault adapter, SQL engine) as explicit
oracle records, mirroring the spec's "external collaborator" boundary.
-/

namespace Things3

/-- Whitespace characters recognised by the embedding (the ASCII subset of
JavaScript's regexp class for whitespace and of `String.prototype.trim`). -/
def isWsChar (c : Char) : Bool :=
  c == ' ' || c == '\t' || c == '\n' || c == '\r' || c == '\x0b' || c == '\x0c'

/-- Drop leading and trailing whitespace from a character list. -/
def trimChars (l : List Char) : List Char :=
  ((l.dropWhile isWsChar).reverse.dropWhile isWsChar).reverse

/-- Model of `String.prototype.trim`. -/
def jsTrim (s : String) : String := String.mk (trimChars s.data)

/-- Model of `String.prototype.split(',')`: splitting an empty string yields
one empty piece, like in JavaScript. -/
def splitComma (l : List Char) : List (List Char) :=
  l.foldr
    (fun c acc =>
      if c == ',' then [] :: acc
      else
        match acc with
        | h :: t => (c :: h) :: t
        | [] => [[c]])
    [[]]

/-- String version of `splitComma`. -/
def jsSplitComma (s : String) : List String := (splitComma s.data).map String.mk

/-- Does `pat` occur as a contiguous sublist of `l`? -/
def listHasInfix (pat l : List Char) : Bool := l.tails.any (fun t => pat.isPrefixOf t)

/-- Model of `String.prototype.indexOf(pat) !== -1`. -/
def strIncludes (s pat : String) : Bool := listHasInfix pat.data s.data

/-- Model of `String.prototype.startsWith`. -/
def strStarts (s p : String) : Bool := p.data.isPrefixOf s.data

/-- Model of `String.prototype.endsWith`. -/
def strEnds (s p : String) : Bool := p.data.reverse.isPrefixOf s.data.reverse

/-- Model of Node's `path.join` for the two-argument shapes used by the
sources: it concatenates with a single separator, dropping a trailing
separator of the first part and a leading separator of the second. -/
def pjoin (a b : String) : String :=
  let a' := if strEnds a "/" then String.mk a.data.dropLast else a
  let b' := if strStarts b "/" then String.mk (b.data.drop 1) else b
  a' ++ "/" ++ b'

/-- Suffix of `l` starting at its last '.', if any. -/
def lastDotSuffix : List Char → Option (List Char)
  | [] => none
  | c :: rest =>
    match lastDotSuffix rest with
    | some s => some s
    | none => if c == '.' then some (c :: rest) else none

/-- Final path component of `l` (characters after the last '/'). -/
def baseNameChars (l : List Char) : List Char :=
  (l.reverse.takeWhile (fun c => !(c == '/'))).reverse

/-- Model of Node's `path.extname`: the suffix of the basename from its last
dot; a dot that starts the basename does not begin an extension. -/
def extname (p : String) : String :=
  match baseNameChars p.data with
  | [] => ""
  | c :: rest =>
    if c == '.' then String.mk ((lastDotSuffix rest).getD [])
    else String.mk ((lastDotSuffix (c :: rest)).getD [])

/-- A JavaScript number, modelled as the exact rational `n / d`.  Ordinary
numeric inputs have `0 < d`; binary floating point values are rationals of
this shape, so the model is exact on every representable input (`NaN` and
the infinities are outside the model). -/
structure JsNumber where
  n : Int
  d : Nat
deriving DecidableEq, Repr

/-- Model of `Number.isInteger` (for `0 < d`). -/
def jsIsInteger (v : JsNumber) : Bool := Int.tmod v.n (v.d : Int) == 0

/-- Model of `x > 1e9` (for `0 < d`): `n / d > 10^9` iff `10^9 * d < n`. -/
def jsGtBillion (v : JsNumber) : Bool := decide ((1000000000 : Int) * (v.d : Int) < v.n)

/-- The integer value of an integral `JsNumber` (exact when `d ∣ n`). -/
def jsIntVal (v : JsNumber) : Int := Int.tdiv v.n (v.d : Int)

/-- Model of the millisecond value `new Date(x * 1000)` works with: the
value times 1000, truncated toward zero as ECMAScript's time clip does. -/
def jsMsVal (v : JsNumber) : Int := Int.tdiv (v.n * 1000) (v.d : Int)

/-- Day number (days since 1970-01-01) of the civil date `y-m-d` for
`m ∈ [1,12]`; `d` may lie outside the month and then shifts the day number
linearly, exactly like ECMAScript's `MakeDay`.  Standard civil-from-days
arithmetic over eras of 400 years. -/
def daysFromCivil (y m d : Int) : Int :=
  let y' := if m ≤ 2 then y - 1 else y
  let era := Int.fdiv y' 400
  let yoe := y' - era * 400
  let mp := Int.emod (m + 9) 12
  let doy := (153 * mp + 2) / 5 + d - 1
  let doe := yoe * 365 + yoe / 4 - yoe / 100 + doy
  era * 146097 + doe - 719468

/-- Civil date `(year, month, day)` of a day number, the inverse direction
of `daysFromCivil`. -/
def civilFromDays (z : Int) : Int × Int × Int :=
  let z' := z + 719468
  let era := Int.fdiv z' 146097
  let doe := z' - era * 146097
  let yoe := (doe - doe / 1460 + doe / 36524 - doe / 146096) / 365
  let y := yoe + era * 400
  let doy := doe - (365 * yoe + yoe / 4 - yoe / 100)
  let mp := (5 * doy + 2) / 153
  let dd := doy - (153 * mp + 2) / 5 + 1
  let mm := mp + (if mp < 10 then 3 else -9)
  (if mm ≤ 2 then y + 1 else y, mm, dd)

/-- Model of `Date.UTC(y, m0, d) / 86400000`: normalise the zero-based month
into the year, then take the (possibly rolled-over) civil day number. -/
def dateUTCdays (y m0 d : Int) : Int :=
  let ym := y * 12 + m0
  daysFromCivil (Int.fdiv ym 12) (Int.emod ym 12 + 1) d

/-- Decimal digits of a natural number. -/
def natChars (k : Nat) : List Char := (Nat.repr k).data

/-- Left-pad a digit list with zeros to the given width. -/
def padZeros (len : Nat) (l : List Char) : List Char :=
  List.replicate (len - l.length) '0' ++ l

/-- Two-digit zero-padded field. -/
def pad2 (k : Nat) : List Char := padZeros 2 (natChars k)

/-- Three-digit zero-padded field. -/
def pad3 (k : Nat) : List Char := padZeros 3 (natChars k)

/-- Year field of `Date.prototype.toISOString`: four digits for years in
`[0, 9999]`, expanded signed six-digit years outside. -/
def isoYearChars (y : Int) : List Char :=
  if y < 0 then '-' :: padZeros 6 (natChars (-y).toNat)
  else if 9999 < y then '+' :: padZeros 6 (natChars y.toNat)
  else padZeros 4 (natChars y.toNat)

/-- Model of `new Date(ms).toISOString()`: split the epoch milliseconds into
a day number and milliseconds of day, render the civil date and time. -/
def isoOfMs (ms : Int) : String :=
  let day := Int.fdiv ms 86400000
  let msod := (ms - day * 86400000).toNat
  let c := civilFromDays day
  String.mk (isoYearChars c.1 ++ '-' :: pad2 c.2.1.toNat ++ '-' :: pad2 c.2.2.toNat ++
    'T' :: pad2 (msod / 3600000) ++ ':' :: pad2 (msod % 3600000 / 60000) ++
    ':' :: pad2 (msod % 60000 / 1000) ++ '.' :: pad3 (msod % 1000) ++ ['Z'])

/-- Model of `Math.floor(abs / 65536)` from the packed branch of `convertThingsDate`. -/
def packedYear (k : Int) : Int := Int.fdiv k 65536

/-- Model of `Math.floor((abs % 65536) / 4096)` from the packed branch. -/
def packedMonth (k : Int) : Int := Int.fdiv (Int.tmod k 65536) 4096

/-- Model of `Math.floor((abs % 4096) / 128)` from the packed branch. -/
def packedDay (k : Int) : Int := Int.fdiv (Int.tmod k 4096) 128

/-- The bounds test `year < 1900 || year > 2100 || month < 1 || month > 12 ||
day < 1 || day > 31` of the packed branch. -/
def packedOutOfBounds (k : Int) : Bool :=
  decide (packedYear k < 1900) || decide (2100 < packedYear k) ||
  decide (packedMonth k < 1) || decide (12 < packedMonth k) ||
  decide (packedDay k < 1) || decide (31 < packedDay k)

/-- Embedding of `convertThingsDate` (noteWriterService.ts): falsy input
yields the empty string; a number above `1e9` or non-integral is treated as
seconds since the Unix epoch; otherwise the integer is decoded as a packed
`year/month/day`, bounds-checked, and rendered via `Date.UTC`. -/
def convertThingsDate : Option JsNumber → String
  | none => ""
  | some v =>
    if v.n = 0 then ""
    else if jsGtBillion v || !jsIsInteger v then isoOfMs (jsMsVal v)
    else
      let k := jsIntVal v
      if packedOutOfBounds k then ""
      else isoOfMs (dateUTCdays (packedYear k) (packedMonth k - 1) (packedDay k) * 86400000)

/-- Embedding of `getYYYYMMDD` (noteWriterService.ts): first ten characters
of the ISO string with dashes removed, or empty. -/
def getYYYYMMDD (v : Option JsNumber) : String :=
  let iso := convertThingsDate v
  if iso == "" then "" else String.mk ((iso.data.take 10).filter (fun c => !(c == '-')))

/-- A JavaScript settings value as seen by `prepareFilters`: either a string
or some non-string value (absent, null, number, …). -/
inductive JsVal where
  | str (s : String)
  | other
deriving DecidableEq, Repr

/-- The three filter fields of the settings object, with no typing
guarantee, as `prepareFilters` must tolerate them. -/
structure LooseSettings where
  filterTags : JsVal
  filterProjects : JsVal
  filterAreas : JsVal
deriving DecidableEq, Repr

/-- Embedding of the `safeSplit` helper of `Things3Service.prepareFilters`:
`typeof val === 'string' ? val.split(',').map(t => t.trim()).filter(Boolean) : []`. -/
def safeSplit : JsVal → List String
  | .str s => ((jsSplitComma s).map jsTrim).filter (fun t => !(t == ""))
  | .other => []

/-- Result of `prepareFilters`. -/
structure Filters where
  tags : List String
  projects : List String
  areas : List String
deriving DecidableEq, Repr

/-- Embedding of `Things3Service.prepareFilters`.  Total by construction:
non-string fields land in the `JsVal.other` branch of `safeSplit`, which is
how the try-free TypeScript avoids throwing. -/
def prepareFilters (s : LooseSettings) : Filters :=
  ⟨safeSplit s.filterTags, safeSplit s.filterProjects, safeSplit s.filterAreas⟩

/-- A row of the task query (`Things3TaskRow` in things3Service.ts). -/
structure TaskRec where
  uuid : String
  title : String
  notes : String
  tags : Option String
  project : Option String
  area : Option String
  project_area : Option String
  status : Int
  creationDate : Option JsNumber
  startDate : Option JsNumber
  stopDate : Option JsNumber
  deadline : Option JsNumber
deriving DecidableEq, Repr

/-- One value of the persisted import cache (`PluginCacheEntry`). -/
structure CacheEntry where
  importedAt : String
  filePath : String
deriving DecidableEq, Repr

/-- The in-memory cache mapping of `CacheService`, in JavaScript object key
insertion order. -/
abbrev Cache := List (String × CacheEntry)

/-- Embedding of `CacheService.has` (`hasOwnProperty`). -/
def cacheHas (c : Cache) (u : String) : Bool := c.any (fun kv => kv.1 == u)

/-- Embedding of `CacheService.add` (`this.cache[uuid] = entry`): update in
place if the key exists, else append, as JavaScript objects do. -/
def cacheAdd (c : Cache) (u : String) (e : CacheEntry) : Cache :=
  if cacheHas c u then c.map (fun kv => if kv.1 == u then (u, e) else kv)
  else c ++ [(u, e)]

/-- Embedding of `Things3Service.getTasks` after its SQL step: `allRows` is
the result of `executeQuery` (the SQL engine is an external collaborator
fixed by database and settings), and the service keeps
`allRows.filter(row => !pluginCache.has(row.uuid))`. -/
def getTasks (allRows : List TaskRec) (cache : Cache) : List TaskRec :=
  allRows.filter (fun row => !cacheHas cache row.uuid)

/-- The settings fields consulted by the embedded writer and orchestrator
(the remaining `Things3WorkflowSettings` fields only shape note content,
which no claim touches). -/
structure Settings where
  databasePath : String
  destinationFolder : String
deriving DecidableEq, Repr

/-- Obsidian's `normalizePath` is an external collaborator of the core; the
embedding takes it as the identity on already-normalised folder strings. -/
def normalizePath (p : String) : String := p

/-- Result of `prepareFilePath`. -/
structure FilePathOut where
  filePath : String
  folder : String
deriving DecidableEq, Repr

/-- The character class kept by the sanitising regexp replace
`[^a-zA-Z0-9-_ ]` → `''` of `prepareFilePath`. -/
def keepFilenameChar (c : Char) : Bool :=
  c.isAlpha || (c.isDigit || (c == '-' || (c == '_' || c == ' ')))

/-- Model of the regexp replace `\s+` → `'_'`: collapse each whitespace run
into a single underscore.  The flag records an open run. -/
def collapseWsAux : List Char → Bool → List Char
  | [], _ => []
  | c :: rest, inRun =>
    if isWsChar c then
      if inRun then collapseWsAux rest true
      else '_' :: collapseWsAux rest true
    else c :: collapseWsAux rest false

/-- The title sanitisation pipeline of `prepareFilePath`: strip characters
outside `[a-zA-Z0-9-_ ]`, collapse whitespace runs to underscores, truncate
to 50 characters. -/
def sanitizeTitle (t : String) : String :=
  String.mk ((collapseWsAux (t.data.filter keepFilenameChar) false).take 50)

/-- JavaScript truthiness of a nullable numeric field (`null`, absent and
`0` are falsy). -/
def truthyNum : Option JsNumber → Bool
  | none => false
  | some v => !(v.n == 0)

/-- Embedding of `NoteWriterService.prepareFilePath`: optional date stamp
from `creationDate` else `startDate`, sanitised title (`'Untitled'` for an
empty or whitespace-only title), first eight identifier characters, `.md`. -/
def prepareFilePath (row : TaskRec) (settings : Settings) : FilePathOut :=
  let dateStr :=
    if truthyNum row.creationDate then getYYYYMMDD row.creationDate
    else if truthyNum row.startDate then getYYYYMMDD row.startDate
    else ""
  let safeTitle :=
    if !(row.title == "") && decide (0 < (jsTrim row.title).length) then row.title
    else "Untitled"
  let sanitizedTitle := sanitizeTitle safeTitle
  let filename := (if !(dateStr == "") then dateStr ++ "_" else "") ++
    sanitizedTitle ++ "_" ++ String.mk (row.uuid.data.take 8) ++ ".md"
  let folder := if !(settings.destinationFolder == "") then normalizePath settings.destinationFolder else ""
  let filePath := if !(folder == "") then folder ++ "/" ++ filename else filename
  ⟨filePath, folder⟩

/-- Embedding of `NoteWriterService.isValidFilePath`: rejects the empty path
and any path containing the literal substrings `undefined` or `null`. -/
def isValidFilePath (filePath : String) : Bool :=
  !(filePath == "" || strIncludes filePath "undefined" || strIncludes filePath "null")

/-- The vault collaborator as seen by `writeNote`: whether creating (or
re-checking) a folder succeeds, whether creating/overwriting a file at a
path succeeds, and the current instant used for `importedAt`. -/
structure VaultEnv where
  folderOk : String → Bool
  createOk : String → Bool
  now : String

/-- State threaded through a batch: the log of successful file writes, the
in-memory cache of the `CacheService` instance, and its persisted image. -/
structure WState where
  files : List String
  mem : Cache
  disk : Cache
deriving DecidableEq, Repr

/-- Embedding of `NoteWriterService.ensureFolder`: an empty folder means the
vault root and always succeeds; otherwise the vault collaborator decides. -/
def ensureFolder (env : VaultEnv) (folder : String) : Bool :=
  if folder == "" then true else env.folderOk folder

/-- Embedding of `NoteWriterService.writeNote` (content rendering aside,
which no claim consults): compute the path, ensure the folder, validate the
path, create the file, and only then reload the cache, add the entry and
persist it.  Every failed step returns with the state untouched. -/
def writeNote (env : VaultEnv) (settings : Settings) (st : WState) (row : TaskRec) : WState :=
  let out := prepareFilePath row settings
  if !ensureFolder env out.folder then st
  else if !isValidFilePath out.filePath then st
  else if !env.createOk out.filePath then st
  else
    let loadedMem := st.disk
    let mem' := cacheAdd loadedMem row.uuid ⟨env.now, out.filePath⟩
    ⟨st.files ++ [out.filePath], mem', mem'⟩

/-- All three guards of `writeNote` pass for this record. -/
def writeSucceeds (env : VaultEnv) (settings : Settings) (row : TaskRec) : Bool :=
  ensureFolder env (prepareFilePath row settings).folder &&
  isValidFilePath (prepareFilePath row settings).filePath &&
  env.createOk (prepareFilePath row settings).filePath

/-- Filesystem collaborator of `DbPathService`.  `header16` is the result of
reading the first sixteen bytes (`none` models a read that throws), and
`readdir` the directory listing (throwing listings are modelled as empty,
which likewise makes the enclosing branch fail). -/
structure FileSys where
  fsExists : String → Bool
  isDir : String → Bool
  header16 : String → Option String
  readable : String → Bool
  mtimeMs : String → Nat
  readdir : String → List String
  homedir : String

/-- The sixteen-byte magic header of an SQLite database file. -/
def sqliteMagic : String := "SQLite format 3\x00"

/-- Embedding of `DbPathService._isValidSQLiteFile`: existence, `.sqlite`
extension, and the magic header. -/
def isValidSQLiteFile (fs : FileSys) (p : String) : Bool :=
  fs.fsExists p && (extname p == ".sqlite") &&
  (match fs.header16 p with
   | some h => h == sqliteMagic
   | none => false)

/-- Embedding of `DbPathService._hasReadPermission`. -/
def hasReadPermission (fs : FileSys) (p : String) : Bool := fs.readable p

/-- Embedding of `DbPathService._isUsableSQLiteFile`. -/
def isUsableSQLiteFile (fs : FileSys) (p : String) : Bool :=
  isValidSQLiteFile fs p && hasReadPermission fs p

/-- Embedding of `DbPathService._resolveFromConfiguredPath`: trim, expand a
leading `~` to the home directory, and validate. -/
def resolveFromConfiguredPath (fs : FileSys) (configuredPath : String) : Option String :=
  let dbPath := jsTrim configuredPath
  let resolvedPath :=
    if strStarts dbPath "~" then pjoin fs.homedir (String.mk (dbPath.data.drop 1))
    else dbPath
  if isUsableSQLiteFile fs resolvedPath then some resolvedPath else none

/-- One step of the best-candidate loop shared by
`_resolveBestThingsDataDir` and `_resolveFromFallback`: keep the running
`(bestDir, bestTime)` pair, replacing it when a usable candidate has
`mtime > bestTime`. -/
def bestStep (fs : FileSys) (acc : Option String × Nat) (c : String) : Option String × Nat :=
  if isUsableSQLiteFile fs c then
    if acc.2 < fs.mtimeMs c then (some c, fs.mtimeMs c) else acc
  else acc

/-- The best-candidate loop of the source, started from `bestTime = 0`. -/
def bestCandidateLoop (fs : FileSys) (cands : List String) : Option String :=
  (cands.foldl (bestStep fs) ((none : Option String), 0)).1

/-- Embedding of `DbPathService._resolveBestThingsDataDir`: run the loop over
`path.join(parentDir, dir, 'main.sqlite')` for each subdirectory. -/
def resolveBestThingsDataDir (fs : FileSys) (subdirs : List String) (parentDir : String) : Option String :=
  bestCandidateLoop fs (subdirs.map (fun dir => pjoin (pjoin parentDir dir) "main.sqlite"))

/-- Embedding of `DbPathService._resolveFromDirectory`. -/
def resolveFromDirectory (fs : FileSys) (directory : String) : Option String :=
  let trimmedDir := jsTrim directory
  if !(fs.fsExists trimmedDir && fs.isDir trimmedDir) then none
  else
    match (fs.readdir trimmedDir).filter (fun dd => strStarts dd "ThingsData-") with
    | [] => none
    | [d0] =>
      let candidate := pjoin (pjoin trimmedDir d0) "main.sqlite"
      if isUsableSQLiteFile fs candidate then some candidate else none
    | d0 :: d1 :: rest => resolveBestThingsDataDir fs (d0 :: d1 :: rest) trimmedDir

/-- Embedding of `DbPathService._resolveFromFallback`: probe the platform
group container, select the vendor container, collect
`ThingsData-*/Things Database.thingsdatabase/main.sqlite` candidates, and
run the same best-candidate loop. -/
def resolveFromFallback (fs : FileSys) : Option String :=
  match (fs.readdir (pjoin (pjoin fs.homedir "Library") "Group Containers")).filter
      (fun dd => strStarts dd "JLMPQHK86H.com.culturedcode.ThingsMac") with
  | [] => none
  | t0 :: _ =>
    match (fs.readdir (pjoin (pjoin (pjoin fs.homedir "Library") "Group Containers") t0)).filter
        (fun dd => strStarts dd "ThingsData-") with
    | [] => none
    | s0 :: srest =>
      bestCandidateLoop fs ((s0 :: srest).filterMap (fun subdir =>
        let thingsDbDir := pjoin
          (pjoin (pjoin (pjoin (pjoin fs.homedir "Library") "Group Containers") t0) subdir)
          "Things Database.thingsdatabase"
        if fs.fsExists thingsDbDir && fs.isDir thingsDbDir then
          some (pjoin thingsDbDir "main.sqlite")
        else none))

/-- Embedding of `DbPathService._resolveDbPath`: configured path, then
directory, then fallback, first success wins; `undefined` and the empty
string are both falsy for the two optional arguments. -/
def resolveDbPath (fs : FileSys) (configuredPath directory : Option String) : Option String :=
  let r1 :=
    match configuredPath with
    | some c => if !(c == "") then resolveFromConfiguredPath fs c else none
    | none => none
  match r1 with
  | some p => some p
  | none =>
    let r2 :=
      match directory with
      | some dd => if !(dd == "") then resolveFromDirectory fs dd else none
      | none => none
    match r2 with
    | some p => some p
    | none => resolveFromFallback fs

/-- Embedding of the `DbPathService` constructor: resolution failure throws
a terminal error, success publishes `dbPath`. -/
def dbPathServiceMk (fs : FileSys) (configuredPath directory : Option String) : Except String String :=
  match resolveDbPath fs configuredPath directory with
  | some p => .ok p
  | none => .error "[DbPathService] No valid Things3 database path could be resolved."

/-- One step of the selection rule as the spec words it: the first-seen
candidate of maximal modification time is kept (strict comparison, so an
earlier candidate wins ties). -/
def pickStep (fs : FileSys) (best : Option String) (c : String) : Option String :=
  match best with
  | none => some c
  | some b => if fs.mtimeMs b < fs.mtimeMs c then some c else best

/-- Selection rule written from the spec's words: "pick, among all matches
that pass validation, the one whose file has the most recent modification
time (ties broken deterministically, first-seen)". -/
def pickMostRecentValidated (fs : FileSys) (cands : List String) : Option String :=
  (cands.filter (isUsableSQLiteFile fs)).foldl (pickStep fs) none

/-- Spec-worded configured-path branch: expand a leading `~` of the (trimmed)
configured path to the home directory, then the result must pass the
four-point validity check, else this branch fails. -/
def specResolveConfigured (fs : FileSys) (configuredPath : String) : Option String :=
  let dbPath := jsTrim configuredPath
  let resolvedPath :=
    if strStarts dbPath "~" then pjoin fs.homedir (String.mk (dbPath.data.drop 1))
    else dbPath
  if isUsableSQLiteFile fs resolvedPath then some resolvedPath else none

/-- Spec-worded directory branch: the directory must exist; zero
`ThingsData-*` matches fail the branch, one match validates its conventional
database filename, many matches use `pickMostRecentValidated`. -/
def specResolveDirectory (fs : FileSys) (directory : String) : Option String :=
  let trimmedDir := jsTrim directory
  if fs.fsExists trimmedDir && fs.isDir trimmedDir then
    match (fs.readdir trimmedDir).filter (fun dd => strStarts dd "ThingsData-") with
    | [] => none
    | [d0] =>
      let candidate := pjoin (pjoin trimmedDir d0) "main.sqlite"
      if isUsableSQLiteFile fs candidate then some candidate else none
    | d0 :: d1 :: rest =>
      pickMostRecentValidated fs
        ((d0 :: d1 :: rest).map (fun dir => pjoin (pjoin trimmedDir dir) "main.sqlite"))
  else none

/-- Spec-worded fallback branch: same probing as the source, but selecting
with `pickMostRecentValidated`. -/
def specResolveFallback (fs : FileSys) : Option String :=
  match (fs.readdir (pjoin (pjoin fs.homedir "Library") "Group Containers")).filter
      (fun dd => strStarts dd "JLMPQHK86H.com.culturedcode.ThingsMac") with
  | [] => none
  | t0 :: _ =>
    match (fs.readdir (pjoin (pjoin (pjoin fs.homedir "Library") "Group Containers") t0)).filter
        (fun dd => strStarts dd "ThingsData-") with
    | [] => none
    | s0 :: srest =>
      pickMostRecentValidated fs ((s0 :: srest).filterMap (fun subdir =>
        let thingsDbDir := pjoin
          (pjoin (pjoin (pjoin (pjoin fs.homedir "Library") "Group Containers") t0) subdir)
          "Things Database.thingsdatabase"
        if fs.fsExists thingsDbDir && fs.isDir thingsDbDir then
          some (pjoin thingsDbDir "main.sqlite")
        else none))

/-- Spec-worded resolution: three branches in strict precedence, first
success wins. -/
def specResolveDbPath (fs : FileSys) (configuredPath directory : Option String) : Option String :=
  let r1 :=
    match configuredPath with
    | some c => if !(c == "") then specResolveConfigured fs c else none
    | none => none
  match r1 with
  | some p => some p
  | none =>
    let r2 :=
      match directory with
      | some dd => if !(dd == "") then specResolveDirectory fs dd else none
      | none => none
    match r2 with
    | some p => some p
    | none => specResolveFallback fs

/-- Result of one orchestrator run: the vault/cache state and the log of
writes to the source database file. -/
structure RunOut where
  st : WState
  dbWrites : List String
deriving Repr

/-- Embedding of `runImporter`: resolve the database path (a constructor
throw aborts the run), open the database (`openDb` is the sql.js
collaborator; `none` models an open failure), load the cache, query and
filter the tasks, write each note, then export the database image back over
the resolved path exactly once. -/
def runImporter (fs : FileSys) (env : VaultEnv) (settings : Settings)
    (openDb : String → Option (List TaskRec)) (st0 : WState) : RunOut :=
  match dbPathServiceMk fs (some settings.databasePath) none with
  | .error _ => ⟨st0, []⟩
  | .ok dbPath =>
    match openDb dbPath with
    | none => ⟨st0, []⟩
    | some allRows =>
      let st1 : WState := ⟨st0.files, st0.disk, st0.disk⟩
      let rows := getTasks allRows st1.mem
      let st2 := rows.foldl (writeNote env settings) st1
      ⟨st2, [dbPath]⟩

/-- Embedding of `rebuildCacheOnly`: identical resolution, open and query,
but each eligible record only receives a cache entry with an empty file
path; the cache is persisted once and no file — in particular not the
source database — is written. -/
def rebuildCacheOnly (fs : FileSys) (env : VaultEnv) (settings : Settings)
    (openDb : String → Option (List TaskRec)) (st0 : WState) : RunOut :=
  match dbPathServiceMk fs (some settings.databasePath) none with
  | .error _ => ⟨st0, []⟩
  | .ok dbPath =>
    match openDb dbPath with
    | none => ⟨st0, []⟩
    | some allRows =>
      let st1 : WState := ⟨st0.files, st0.disk, st0.disk⟩
      let rows := getTasks allRows st1.mem
      let mem' := rows.foldl (fun c row => cacheAdd c row.uuid ⟨env.now, ""⟩) st1.mem
      ⟨⟨st0.files, mem', mem'⟩, []⟩

/-- A heap of JavaScript objects for the reference-semantics model of
`CacheService`: `objs` maps object addresses to cache mappings whose values
are addresses of entry objects, `ents` maps entry addresses to entry
values, and `next` is the next fresh address. -/
structure ObjHeap where
  objs : List (Nat × List (String × Nat))
  ents : List (Nat × CacheEntry)
  next : Nat
deriving DecidableEq, Repr

/-- Content of the object at address `a` (empty if unallocated). -/
def lookupObj (h : ObjHeap) (a : Nat) : List (String × Nat) :=
  (((h.objs.find? (fun kv => kv.1 == a)).map (fun kv => kv.2)).getD [])

/-- Entry value at address `a` (a default entry if unallocated). -/
def lookupEnt (h : ObjHeap) (a : Nat) : CacheEntry :=
  (((h.ents.find? (fun kv => kv.1 == a)).map (fun kv => kv.2)).getD ⟨"", ""⟩)

/-- Replace the content of the object at address `a`. -/
def setObj (h : ObjHeap) (a : Nat) (o : List (String × Nat)) : ObjHeap :=
  ⟨h.objs.map (fun kv => if kv.1 == a then (a, o) else kv), h.ents, h.next⟩

/-- Property-assignment on a JavaScript object mapping: update in place if
the key exists, else append. -/
def assocSet (l : List (String × Nat)) (k : String) (v : Nat) : List (String × Nat) :=
  if l.any (fun kv => kv.1 == k) then l.map (fun kv => if kv.1 == k then (k, v) else kv)
  else l ++ [(k, v)]

/-- Model of `new CacheService(...)` followed by `load()` of an absent file: allocate
a fresh empty cache object and return its address. -/
def svcNew (h : ObjHeap) : ObjHeap × Nat :=
  (⟨(h.next, []) :: h.objs, h.ents, h.next + 1⟩, h.next)

/-- Heap model of `CacheService.has` (`hasOwnProperty` on the cache object). -/
def svcHas (h : ObjHeap) (cacheAddr : Nat) (uuid : String) : Bool :=
  (lookupObj h cacheAddr).any (fun kv => kv.1 == uuid)

/-- Heap model of `CacheService.add`: allocate the entry object passed by the
caller and store its reference under the identifier. -/
def svcAdd (h : ObjHeap) (cacheAddr : Nat) (uuid : String) (e : CacheEntry) : ObjHeap :=
  let h1 : ObjHeap := ⟨h.objs, (h.next, e) :: h.ents, h.next + 1⟩
  setObj h1 cacheAddr (assocSet (lookupObj h1 cacheAddr) uuid h.next)

/-- Heap model of `CacheService.getAll` (`return { ...this.cache }`): a fresh
top-level object holding the same keys and the same entry references. -/
def svcGetAll (h : ObjHeap) (cacheAddr : Nat) : ObjHeap × Nat :=
  (⟨(h.next, lookupObj h cacheAddr) :: h.objs, h.ents, h.next + 1⟩, h.next)

/-- What `CacheService.save` serialises (`JSON.stringify(this.cache)`): the
cache mapping with every entry reference dereferenced. -/
def svcSerialize (h : ObjHeap) (cacheAddr : Nat) : List (String × CacheEntry) :=
  (lookupObj h cacheAddr).map (fun kv => (kv.1, lookupEnt h kv.2))

/-- A caller-side top-level mutation of an object returned to it:
`obj[k] = v`. -/
def callerSetKey (h : ObjHeap) (objAddr : Nat) (k : String) (entAddr : Nat) : ObjHeap :=
  setObj h objAddr (assocSet (lookupObj h objAddr) k entAddr)

/-- A caller-side top-level mutation: `delete obj[k]`. -/
def callerDeleteKey (h : ObjHeap) (objAddr : Nat) (k : String) : ObjHeap :=
  setObj h objAddr ((lookupObj h objAddr).filter (fun kv => !(kv.1 == k)))

/-- A caller-side mutation of a nested entry object reachable through a
returned reference: `entry.importedAt = ...; entry.filePath = ...`. -/
def callerMutateEntry (h : ObjHeap) (entAddr : Nat) (e : CacheEntry) : ObjHeap :=
  ⟨h.objs, h.ents.map (fun kv => if kv.1 == entAddr then (entAddr, e) else kv), h.next⟩

/-- Amended-claim sanitisation (C7): characters other than ASCII
alphanumerics, hyphens, underscores and spaces are stripped, whitespace
runs collapse to single underscores, truncated to 50 characters. -/
def specSanitizeTitle (t : String) : String :=
  String.mk ((collapseWsAux (t.data.filter
    (fun c => c.isAlphanum || (c == '-' || (c == '_' || c == ' ')))) false).take 50)

/-- Amended-claim date stamp (C7): from the creation date whenever that
field is present (truthy) — even when its conversion yields no stamp — else
from the start date. -/
def specDateStamp (row : TaskRec) : String :=
  if truthyNum row.creationDate then getYYYYMMDD row.creationDate
  else if truthyNum row.startDate then getYYYYMMDD row.startDate
  else ""

/-- Amended-claim filename (C7): optional leading date stamp, sanitised
title (`Untitled` when the title is empty or whitespace-only), the first
eight identifier characters, and the fixed `.md` extension, joined with
underscores. -/
def specFileName (row : TaskRec) : String :=
  let base := if jsTrim row.title == "" then "Untitled" else row.title
  (if specDateStamp row == "" then "" else specDateStamp row ++ "_") ++
    specSanitizeTitle base ++ "_" ++ String.mk (row.uuid.data.take 8) ++ ".md"

/-- Amended-claim path (C7): the filename under the configured destination
folder, or at the vault root when no folder is configured. -/
def specFilePathAmended (row : TaskRec) (settings : Settings) : FilePathOut :=
  let folder := if settings.destinationFolder == "" then ""
    else normalizePath settings.destinationFolder
  ⟨if folder == "" then specFileName row else folder ++ "/" ++ specFileName row, folder⟩

/-- C7's sanitisation exactly as the claim words it: non-alphanumeric
characters stripped (whitespace kept for the following step), whitespace
collapsed to underscores, truncated to 50 characters. -/
def claimSanitizeTitle (t : String) : String :=
  String.mk ((collapseWsAux (t.data.filter (fun c => c.isAlphanum || isWsChar c)) false).take 50)

/-- C7's date stamp exactly as the claim words it: taken from the creation
date or else the start date, omitted only when neither yields a date. -/
def claimDateStamp (row : TaskRec) : String :=
  if !(getYYYYMMDD row.creationDate == "") then getYYYYMMDD row.creationDate
  else if !(getYYYYMMDD row.startDate == "") then getYYYYMMDD row.startDate
  else ""

/-- C7's filename exactly as the claim words it. -/
def claimFileName (row : TaskRec) : String :=
  let base := if jsTrim row.title == "" then "Untitled" else row.title
  (if claimDateStamp row == "" then "" else claimDateStamp row ++ "_") ++
    claimSanitizeTitle base ++ "_" ++ String.mk (row.uuid.data.take 8) ++ ".md"

/-- C7's path exactly as the claim words it. -/
def claimFilePath (row : TaskRec) (settings : Settings) : FilePathOut :=
  let folder := if settings.destinationFolder == "" then ""
    else normalizePath settings.destinationFolder
  ⟨if folder == "" then claimFileName row else folder ++ "/" ++ claimFileName row, folder⟩

/-- Shape check for the 24-character UTC ISO-8601 form
`YYYY-MM-DDTHH:MM:SS.mmmZ`. -/
def isISO8601UTC (s : String) : Bool :=
  match s.data with
  | [y1, y2, y3, y4, '-', m1, m2, '-', d1, d2, 'T', h1, h2, ':', i1, i2, ':', s1, s2, '.', f1, f2, f3, 'Z'] =>
    y1.isDigit && y2.isDigit && y3.isDigit && y4.isDigit && m1.isDigit && m2.isDigit &&
    d1.isDigit && d2.isDigit && h1.isDigit && h2.isDigit && i1.isDigit && i2.isDigit &&
    s1.isDigit && s2.isDigit && f1.isDigit && f2.isDigit && f3.isDigit
  | _ => false

/-! ### Concrete inputs used by witnesses and counterexamples -/

/-- Concrete filesystem for the C1 witness: a single configured database
path that passes the four-point check. -/
def wfsC1 : FileSys :=
  ⟨fun q => q == "/db.sqlite", fun _ => false,
   fun q => if q == "/db.sqlite" then some sqliteMagic else none,
   fun q => q == "/db.sqlite", fun _ => 1, fun _ => [], "/h"⟩

/-- Concrete vault environment for the C1 witness. -/
def wenvC1 : VaultEnv := ⟨fun _ => true, fun _ => true, "2025-10-12T00:00:00.000Z"⟩

/-- Concrete settings for the C1 witness. -/
def wsetC1 : Settings := ⟨"/db.sqlite", ""⟩

/-- Concrete eligible records for the C1 witness. -/
def wrowsC1 : List TaskRec :=
  [⟨"aaaa1111", "Task A", "", none, none, none, none, 0, none, none, none, none⟩,
   ⟨"bbbb2222", "Task B", "", none, none, none, none, 0, none, none, none, none⟩]

/-- Concrete database opener for the C1 witness. -/
def wopenC1 : String → Option (List TaskRec) :=
  fun q => if q == "/db.sqlite" then some wrowsC1 else none

/-- Concrete filesystem refuting C3 as stated: two validated
`ThingsData-*` candidates whose modification time is zero. -/
def fsCexC3 : FileSys :=
  ⟨fun q => q == "/data" || q == "/data/ThingsData-A/main.sqlite" ||
      q == "/data/ThingsData-B/main.sqlite",
   fun q => q == "/data",
   fun q => if q == "/data/ThingsData-A/main.sqlite" || q == "/data/ThingsData-B/main.sqlite"
     then some sqliteMagic else none,
   fun q => !(q == "/data"),
   fun _ => 0,
   fun q => if q == "/data" then ["ThingsData-A", "ThingsData-B"] else [],
   "/h"⟩

/-- Concrete filesystem for the C3 witness, with positive modification
times. -/
def wfsC3 : FileSys :=
  ⟨fun q => q == "/data" || q == "/data/ThingsData-A/main.sqlite" ||
      q == "/data/ThingsData-B/main.sqlite",
   fun q => q == "/data",
   fun q => if q == "/data/ThingsData-A/main.sqlite" || q == "/data/ThingsData-B/main.sqlite"
     then some sqliteMagic else none,
   fun _ => true,
   fun _ => 5,
   fun q => if q == "/data" then ["ThingsData-A", "ThingsData-B"] else [],
   "/h"⟩

/-- Concrete heap for the C8 witness: one cached identifier whose entry
object lives at address 1, cache object at address 0. -/
def whC8 : ObjHeap := ⟨[(0, [("foo", 1)])], [(1, ⟨"2025-01-01T00:00:00.000Z", "foo.md"⟩)], 2⟩

/-- Concrete collaborators for the C10 witness: resolution and open succeed
with zero eligible records. -/
def wfsC10 : FileSys :=
  ⟨fun q => q == "/db.sqlite", fun _ => false,
   fun q => if q == "/db.sqlite" then some sqliteMagic else none,
   fun q => q == "/db.sqlite", fun _ => 1, fun _ => [], "/h"⟩

/-! ## General lemmas about the embedded operations -/

theorem string_mk_eq_empty_iff (l : List Char) : String.mk l = "" ↔ l = [] := by
  constructor
  · intro h
    exact congrArg String.data h
  · intro h
    rw [h]

theorem isoOfMs_ne_empty (ms : Int) : isoOfMs ms ≠ "" := by
  unfold isoOfMs
  intro h
  have h2 := (string_mk_eq_empty_iff _).mp h
  simp at h2

theorem cacheHas_append (c₁ c₂ : Cache) (u : String) :
    cacheHas (c₁ ++ c₂) u = (cacheHas c₁ u || cacheHas c₂ u) := by
  simp [cacheHas, List.any_append]

theorem cacheAdd_of_not_has (c : Cache) (u : String) (e : CacheEntry)
    (h : cacheHas c u = false) : cacheAdd c u e = c ++ [(u, e)] := by
  simp [cacheAdd, h]

/-! ## C9 -/

/-- C9: the packed value 2025·65536 + 2·4096 + 30·128 = 132722432 decodes to
year 2025, month 2, day 30, which passes the bounds check although
2025-02-30 is not a calendar day, and `convertThingsDate` returns the
non-empty ISO string of the rolled-over date 2025-03-02 rather than the
empty string. -/
theorem C9_packed_bounds_rollover :
    2025 * 65536 + 2 * 4096 + 30 * 128 = 132722432 ∧
    packedYear 132722432 = 2025 ∧ packedMonth 132722432 = 2 ∧ packedDay 132722432 = 30 ∧
    packedOutOfBounds 132722432 = false ∧
    convertThingsDate (some ⟨132722432, 1⟩) = "2025-03-02T00:00:00.000Z" ∧
    convertThingsDate (some ⟨132722432, 1⟩) ≠ "" ∧
    civilFromDays (dateUTCdays 2025 (2 - 1) 30) = (2025, 3, 2) ∧
    ((2025, 3, 2) : Int × Int × Int) ≠ (2025, 2, 30) := by
  decide

/-! ## C2 -/

/-- C2: for every cache state and identifier present in it, `getTasks` never
returns a record with that identifier — the cache filter applies in this and
every later run, for as long as the identifier stays in the cache (i.e.
until an explicit clear removes it). -/
theorem C2_cached_never_reselected (rows : List TaskRec) (cache : Cache) (u : String)
    (h : cacheHas cache u = true) :
    ∀ r ∈ getTasks rows cache, r.uuid ≠ u := by
  intro r hr he
  simp only [getTasks, List.mem_filter] at hr
  rcases hr with ⟨-, hp⟩
  rw [he, h] at hp
  simp at hp

/-- Witness for C2 at a concrete database and cache. -/
theorem C2_cached_never_reselected_witness :
    TaskRec.uuid ⟨"xyz", "T2", "", none, none, none, none, 0, none, none, none, none⟩ ≠ "abc" :=
  C2_cached_never_reselected
    [⟨"abc", "T1", "", none, none, none, none, 0, none, none, none, none⟩,
     ⟨"xyz", "T2", "", none, none, none, none, 0, none, none, none, none⟩]
    [("abc", ⟨"2025-01-01T00:00:00.000Z", "a.md"⟩)] "abc" (by decide)
    ⟨"xyz", "T2", "", none, none, none, none, 0, none, none, none, none⟩ (by decide)

/-! ## C6 -/

/-- C6: `prepareFilters` is total on arbitrarily-typed filter fields (the
embedding is a total function, mirroring the throw-free TypeScript): a
non-string field yields the empty filter set, and a string field is split on
commas, trimmed, with empty entries dropped. -/
theorem C6_filter_normalization (s : LooseSettings) :
    (s.filterTags = JsVal.other → (prepareFilters s).tags = []) ∧
    (s.filterProjects = JsVal.other → (prepareFilters s).projects = []) ∧
    (s.filterAreas = JsVal.other → (prepareFilters s).areas = []) ∧
    (∀ t, s.filterTags = JsVal.str t →
      (prepareFilters s).tags = ((jsSplitComma t).map jsTrim).filter (fun x => !(x == ""))) ∧
    (∀ t, s.filterProjects = JsVal.str t →
      (prepareFilters s).projects = ((jsSplitComma t).map jsTrim).filter (fun x => !(x == ""))) ∧
    (∀ t, s.filterAreas = JsVal.str t →
      (prepareFilters s).areas = ((jsSplitComma t).map jsTrim).filter (fun x => !(x == ""))) := by
  refine ⟨fun h => ?_, fun h => ?_, fun h => ?_,
    fun t h => ?_, fun t h => ?_, fun t h => ?_⟩ <;>
    simp [prepareFilters, h, safeSplit]

/-- Witness for C6: a malformed (non-string) field becomes the empty set
while a string field is normalised. -/
theorem C6_filter_normalization_witness :
    (prepareFilters ⟨JsVal.str "a, ,b", JsVal.other, JsVal.other⟩).projects = [] ∧
    (prepareFilters ⟨JsVal.str "a, ,b", JsVal.other, JsVal.other⟩).tags = ["a", "b"] := by
  constructor
  · exact (C6_filter_normalization _).2.1 rfl
  · rw [(C6_filter_normalization _).2.2.2.1 "a, ,b" rfl]
    decide

/-! ## C5 -/

/-- C5: `writeNote` skips the record with an untouched state when the path
contains `undefined`/`null`, when folder creation fails, or when the file
write fails; a cache entry (in memory and persisted) appears exactly on a
successful write; and a failing record leaves the processing of the other
records of the batch unchanged. -/
theorem C5_write_then_cache (env : VaultEnv) (settings : Settings) (st : WState) (row : TaskRec) :
    ((strIncludes (prepareFilePath row settings).filePath "undefined" = true ∨
      strIncludes (prepareFilePath row settings).filePath "null" = true) →
       writeNote env settings st row = st) ∧
    (ensureFolder env (prepareFilePath row settings).folder = false →
       writeNote env settings st row = st) ∧
    (env.createOk (prepareFilePath row settings).filePath = false →
       writeNote env settings st row = st) ∧
    (writeSucceeds env settings row = false → writeNote env settings st row = st) ∧
    (writeSucceeds env settings row = true →
       writeNote env settings st row =
         ⟨st.files ++ [(prepareFilePath row settings).filePath],
          cacheAdd st.disk row.uuid ⟨env.now, (prepareFilePath row settings).filePath⟩,
          cacheAdd st.disk row.uuid ⟨env.now, (prepareFilePath row settings).filePath⟩⟩) ∧
    (writeSucceeds env settings row = false → ∀ pre post : List TaskRec,
       (pre ++ row :: post).foldl (writeNote env settings) st =
         (pre ++ post).foldl (writeNote env settings) st) := by
  have hfail : ∀ st' : WState, writeSucceeds env settings row = false →
      writeNote env settings st' row = st' := by
    intro st' hws
    cases hf : ensureFolder env (prepareFilePath row settings).folder <;>
      cases hv : isValidFilePath (prepareFilePath row settings).filePath <;>
        cases hc : env.createOk (prepareFilePath row settings).filePath <;>
          simp [writeSucceeds, hf, hv, hc] at hws ⊢ <;>
            simp [writeNote, hf, hv, hc]
  refine ⟨?_, ?_, ?_, hfail st, ?_, ?_⟩
  · intro hinc
    have hv : isValidFilePath (prepareFilePath row settings).filePath = false := by
      rcases hinc with h | h <;> simp [isValidFilePath, h]
    apply hfail
    simp [writeSucceeds, hv]
  · intro hf
    apply hfail
    simp [writeSucceeds, hf]
  · intro hc
    apply hfail
    simp [writeSucceeds, hc]
  · intro hws
    rcases Bool.and_eq_true_iff.mp hws with ⟨h12, h3⟩
    rcases Bool.and_eq_true_iff.mp h12 with ⟨h1, h2⟩
    simp [writeNote, h1, h2, h3]
  · intro hws pre post
    rw [List.foldl_append, List.foldl_append, List.foldl_cons, hfail _ hws]

/-- Witness for C5: a record whose sanitised title is literally `undefined`
is skipped without any state change. -/
theorem C5_write_then_cache_witness :
    writeNote ⟨fun _ => true, fun _ => true, "2025-10-12T00:00:00.000Z"⟩ ⟨"", ""⟩ ⟨[], [], []⟩
      ⟨"u7", "undefined", "", none, none, none, none, 0, none, none, none, none⟩ = ⟨[], [], []⟩ :=
  (C5_write_then_cache ⟨fun _ => true, fun _ => true, "2025-10-12T00:00:00.000Z"⟩ ⟨"", ""⟩
    ⟨[], [], []⟩ ⟨"u7", "undefined", "", none, none, none, none, 0, none, none, none, none⟩).1
    (Or.inl (by decide))

/-! ## C4 -/

/-- C4: `convertThingsDate` distinguishes the two numeric shapes exactly at
the `1e9` / integrality threshold, decodes packed values by floor-division
and remainder equivalent to the right shifts by 16, 12 and 7 bits, returns
the (non-empty) `Date.UTC`-rendered ISO string for in-bounds fields and the
empty string for out-of-bounds fields and falsy input, and maps the packed
encoding of 2025-12-12 to `"2025-12-12T00:00:00.000Z"`. -/
theorem C4_date_codec :
    (convertThingsDate none = "" ∧ ∀ d : Nat, convertThingsDate (some ⟨0, d⟩) = "") ∧
    (∀ v : JsNumber, v.n ≠ 0 → (jsGtBillion v = true ∨ jsIsInteger v = false) →
       convertThingsDate (some v) = isoOfMs (jsMsVal v)) ∧
    (∀ v : JsNumber, v.n ≠ 0 → jsGtBillion v = false → jsIsInteger v = true →
       (packedOutOfBounds (jsIntVal v) = false →
          convertThingsDate (some v) =
            isoOfMs (dateUTCdays (packedYear (jsIntVal v)) (packedMonth (jsIntVal v) - 1)
              (packedDay (jsIntVal v)) * 86400000) ∧
          convertThingsDate (some v) ≠ "") ∧
       (packedOutOfBounds (jsIntVal v) = true → convertThingsDate (some v) = "")) ∧
    (∀ k : Int, packedOutOfBounds k = false ↔
       (1900 ≤ packedYear k ∧ packedYear k ≤ 2100 ∧ 1 ≤ packedMonth k ∧
        packedMonth k ≤ 12 ∧ 1 ≤ packedDay k ∧ packedDay k ≤ 31)) ∧
    (∀ k : Nat, packedYear (k : Int) = ((k >>> 16 : Nat) : Int) ∧
       packedMonth (k : Int) = (((k >>> 12) % 16 : Nat) : Int) ∧
       packedDay (k : Int) = (((k >>> 7) % 32 : Nat) : Int)) ∧
    (2025 * 65536 + 12 * 4096 + 12 * 128 = 132761088 ∧
     convertThingsDate (some ⟨132761088, 1⟩) = "2025-12-12T00:00:00.000Z" ∧
     isISO8601UTC "2025-12-12T00:00:00.000Z" = true) := by
  refine ⟨⟨rfl, fun d => rfl⟩, ?_, ?_, ?_, ?_, by decide⟩
  · intro v hn hor
    have hc : (jsGtBillion v || !jsIsInteger v) = true := by
      rcases hor with h | h <;> simp [h]
    simp [convertThingsDate, hn, hc]
  · intro v hn hgt hint
    have hc : (jsGtBillion v || !jsIsInteger v) = false := by simp [hgt, hint]
    constructor
    · intro hb
      constructor
      · simp [convertThingsDate, hn, hc, hb]
      · simp only [convertThingsDate, hn, hc, hb]
        simp [isoOfMs_ne_empty]
    · intro hb
      simp [convertThingsDate, hn, hc, hb]
  · intro k
    simp only [packedOutOfBounds, Bool.or_eq_false_iff, decide_eq_false_iff_not, not_lt]
    omega
  · intro k
    have hy : packedYear (k : Int) = (k : Int) / 65536 :=
      Int.fdiv_eq_ediv _ (by decide)
    have htm : ∀ b : Nat, Int.tmod (k : Int) (b : Int) = (k : Int) % (b : Int) := by
      intro b
      exact Int.tmod_eq_emod (Int.natCast_nonneg k) (Int.natCast_nonneg b)
    refine ⟨?_, ?_, ?_⟩
    · rw [hy, Nat.shiftRight_eq_div_pow]
      omega
    · show Int.fdiv (Int.tmod (k : Int) 65536) 4096 = _
      rw [show (65536 : Int) = ((65536 : Nat) : Int) by rfl, htm,
        Int.fdiv_eq_ediv _ (by decide), Nat.shiftRight_eq_div_pow]
      have : ((65536 : Nat) : Int) = 65536 := rfl
      rw [this]
      omega
    · show Int.fdiv (Int.tmod (k : Int) 4096) 128 = _
      rw [show (4096 : Int) = ((4096 : Nat) : Int) by rfl, htm,
        Int.fdiv_eq_ediv _ (by decide), Nat.shiftRight_eq_div_pow]
      have : ((4096 : Nat) : Int) = 4096 := rfl
      rw [this]
      omega

/-- Witness for C4: a non-integral number takes the Unix branch, and an
integral value whose decoded fields fail the bounds check yields `""`. -/
theorem C4_date_codec_witness :
    convertThingsDate (some ⟨3, 2⟩) = isoOfMs (jsMsVal ⟨3, 2⟩) ∧
    convertThingsDate (some ⟨123, 1⟩) = "" :=
  ⟨C4_date_codec.2.1 ⟨3, 2⟩ (by decide) (Or.inr (by decide)),
   (C4_date_codec.2.2.1 ⟨123, 1⟩ (by decide) (by decide) (by decide)).2 (by decide)⟩

/-! ## C1 -/

theorem getTasks_empty_cache (rows : List TaskRec) : getTasks rows [] = rows := by
  simp [getTasks, cacheHas]

theorem cacheHas_of_map_mem (rows : List TaskRec) (f : TaskRec → CacheEntry) (r : TaskRec)
    (hr : r ∈ rows) :
    cacheHas (rows.map (fun q => (q.uuid, f q))) r.uuid = true := by
  simp only [cacheHas, List.any_eq_true]
  exact ⟨(r.uuid, f r), List.mem_map_of_mem _ hr, by simp⟩

theorem getTasks_all_cached (rows : List TaskRec) (f : TaskRec → CacheEntry) :
    getTasks rows (rows.map (fun q => (q.uuid, f q))) = [] := by
  simp only [getTasks, List.filter_eq_nil_iff]
  intro r hr
  simp [cacheHas_of_map_mem rows f r hr]

/-- Running the batch fold of `runImporter` over records that all write
successfully, none of which is cached yet and whose identifiers are
pairwise distinct, appends one file-write event and one cache entry per
record. -/
theorem foldl_writeNote_fresh (env : VaultEnv) (settings : Settings) :
    ∀ (rows : List TaskRec) (st : WState),
      st.mem = st.disk →
      (∀ r ∈ rows, writeSucceeds env settings r = true) →
      (∀ r ∈ rows, cacheHas st.disk r.uuid = false) →
      (rows.map TaskRec.uuid).Nodup →
      rows.foldl (writeNote env settings) st =
        ⟨st.files ++ rows.map (fun r => (prepareFilePath r settings).filePath),
         st.disk ++ rows.map (fun r => (r.uuid, ⟨env.now, (prepareFilePath r settings).filePath⟩)),
         st.disk ++ rows.map (fun r => (r.uuid, ⟨env.now, (prepareFilePath r settings).filePath⟩))⟩ := by
  intro rows
  induction rows with
  | nil =>
    intro st hmem _ _ _
    cases st with
    | mk files mem disk =>
      simp at hmem
      simp [hmem]
  | cons r t ih =>
    intro st hmem hok hhas hnd
    have hstep := ((C5_write_then_cache env settings st r).2.2.2.2.1) (hok r (by simp))
    rw [List.foldl_cons, hstep,
      cacheAdd_of_not_has st.disk r.uuid _ (hhas r (by simp))]
    rw [List.map_cons] at hnd
    have hnd' := List.nodup_cons.mp hnd
    have ht := ih ⟨st.files ++ [(prepareFilePath r settings).filePath],
        st.disk ++ [(r.uuid, ⟨env.now, (prepareFilePath r settings).filePath⟩)],
        st.disk ++ [(r.uuid, ⟨env.now, (prepareFilePath r settings).filePath⟩)]⟩ rfl
      (fun q hq => hok q (by simp [hq]))
      (fun q hq => by
        have h1 := hhas q (by simp [hq])
        have h2 : ¬ (r.uuid == q.uuid) = true := by
          simp only [beq_iff_eq]
          intro he
          exact hnd'.1 (he ▸ List.mem_map_of_mem TaskRec.uuid hq)
        have hsing : cacheHas
            [(r.uuid, (⟨env.now, (prepareFilePath r settings).filePath⟩ : CacheEntry))]
            q.uuid = false := by
          simp [cacheHas, h2]
        rw [cacheHas_append, h1, hsing]
        rfl)
      hnd'.2
    rw [ht]
    simp

/-- C1: with an initially empty cache, a run of `runImporter` over a
database exposing `rows` (pairwise-distinct identifiers, all writes
succeeding) performs exactly one file write and creates exactly one cache
entry per record; an immediate second run against the unchanged database
and the resulting state performs zero new file writes and adds zero cache
entries. -/
theorem C1_import_idempotent (fs : FileSys) (env : VaultEnv) (settings : Settings)
    (openDb : String → Option (List TaskRec)) (p : String) (rows : List TaskRec)
    (hres : dbPathServiceMk fs (some settings.databasePath) none = .ok p)
    (hopen : openDb p = some rows)
    (hnd : (rows.map TaskRec.uuid).Nodup)
    (hok : ∀ r ∈ rows, writeSucceeds env settings r = true) :
    (runImporter fs env settings openDb ⟨[], [], []⟩).st.files.length = rows.length ∧
    (runImporter fs env settings openDb ⟨[], [], []⟩).st.disk.length = rows.length ∧
    (runImporter fs env settings openDb
        (runImporter fs env settings openDb ⟨[], [], []⟩).st).st.files =
      (runImporter fs env settings openDb ⟨[], [], []⟩).st.files ∧
    (runImporter fs env settings openDb
        (runImporter fs env settings openDb ⟨[], [], []⟩).st).st.disk =
      (runImporter fs env settings openDb ⟨[], [], []⟩).st.disk := by
  have hrun1 : runImporter fs env settings openDb ⟨[], [], []⟩ =
      ⟨⟨rows.map (fun r => (prepareFilePath r settings).filePath),
        rows.map (fun r => (r.uuid, ⟨env.now, (prepareFilePath r settings).filePath⟩)),
        rows.map (fun r => (r.uuid, ⟨env.now, (prepareFilePath r settings).filePath⟩))⟩, [p]⟩ := by
    simp only [runImporter, hres, hopen, getTasks_empty_cache]
    rw [foldl_writeNote_fresh env settings rows ⟨[], [], []⟩ rfl hok (fun r _ => rfl) hnd]
    simp
  have hrun2 : runImporter fs env settings openDb
      (runImporter fs env settings openDb ⟨[], [], []⟩).st =
      ⟨(runImporter fs env settings openDb ⟨[], [], []⟩).st, [p]⟩ := by
    rw [hrun1]
    simp only [runImporter, hres, hopen]
    rw [getTasks_all_cached rows (fun r => ⟨env.now, (prepareFilePath r settings).filePath⟩)]
    simp
  rw [hrun2, hrun1]
  simp

/-- Witness for C1 at two concrete records. -/
theorem C1_import_idempotent_witness :
    (runImporter wfsC1 wenvC1 wsetC1 wopenC1 ⟨[], [], []⟩).st.files.length = wrowsC1.length ∧
    (runImporter wfsC1 wenvC1 wsetC1 wopenC1 ⟨[], [], []⟩).st.disk.length = wrowsC1.length ∧
    (runImporter wfsC1 wenvC1 wsetC1 wopenC1
        (runImporter wfsC1 wenvC1 wsetC1 wopenC1 ⟨[], [], []⟩).st).st.files =
      (runImporter wfsC1 wenvC1 wsetC1 wopenC1 ⟨[], [], []⟩).st.files ∧
    (runImporter wfsC1 wenvC1 wsetC1 wopenC1
        (runImporter wfsC1 wenvC1 wsetC1 wopenC1 ⟨[], [], []⟩).st).st.disk =
      (runImporter wfsC1 wenvC1 wsetC1 wopenC1 ⟨[], [], []⟩).st.disk :=
  C1_import_idempotent wfsC1 wenvC1 wsetC1 wopenC1 "/db.sqlite" wrowsC1 rfl rfl
    (by decide) (by decide)

/-! ## C3 -/

theorem bestLoop_from_some (fs : FileSys) :
    ∀ (cands : List String) (b : String),
      (cands.foldl (bestStep fs) (some b, fs.mtimeMs b)).1 =
        (cands.filter (isUsableSQLiteFile fs)).foldl (pickStep fs) (some b) := by
  intro cands
  induction cands with
  | nil => intro b; rfl
  | cons c t ih =>
    intro b
    by_cases hu : isUsableSQLiteFile fs c
    · by_cases hlt : fs.mtimeMs b < fs.mtimeMs c
      · simp [List.filter_cons, bestStep, hu, hlt, pickStep, ih c]
      · simp [List.filter_cons, bestStep, hu, hlt, pickStep, ih b]
    · simp [List.filter_cons, bestStep, hu, ih b]

/-- Under positive modification times the source's best-candidate loop
computes exactly the spec's selection rule. -/
theorem bestLoop_eq_pick (fs : FileSys) (hm : ∀ q : String, 0 < fs.mtimeMs q)
    (cands : List String) :
    bestCandidateLoop fs cands = pickMostRecentValidated fs cands := by
  unfold bestCandidateLoop pickMostRecentValidated
  induction cands with
  | nil => rfl
  | cons c t ih =>
    by_cases hu : isUsableSQLiteFile fs c
    · have h0 : (0 : Nat) < fs.mtimeMs c := hm c
      simp only [List.filter_cons, hu, if_pos, List.foldl_cons, bestStep, h0, pickStep]
      simpa [bestStep, hu, h0, pickStep] using bestLoop_from_some fs t c
    · simpa [List.filter_cons, bestStep, hu] using ih

theorem resolveConfigured_eq_spec (fs : FileSys) (c : String) :
    resolveFromConfiguredPath fs c = specResolveConfigured fs c := rfl

theorem resolveDirectory_eq_spec (fs : FileSys) (hm : ∀ q : String, 0 < fs.mtimeMs q)
    (dd : String) : resolveFromDirectory fs dd = specResolveDirectory fs dd := by
  unfold resolveFromDirectory specResolveDirectory resolveBestThingsDataDir
  by_cases h : fs.fsExists (jsTrim dd) && fs.isDir (jsTrim dd)
  · simp only [h, Bool.not_true, Bool.false_eq_true, if_false, if_true]
    cases hl : (fs.readdir (jsTrim dd)).filter (fun x => strStarts x "ThingsData-") with
    | nil => rfl
    | cons d0 t =>
      cases t with
      | nil => rfl
      | cons d1 rest => exact bestLoop_eq_pick fs hm _
  · simp [h]

theorem resolveFallback_eq_spec (fs : FileSys) (hm : ∀ q : String, 0 < fs.mtimeMs q) :
    resolveFromFallback fs = specResolveFallback fs := by
  unfold resolveFromFallback specResolveFallback
  cases (fs.readdir (pjoin (pjoin fs.homedir "Library") "Group Containers")).filter
      (fun x => strStarts x "JLMPQHK86H.com.culturedcode.ThingsMac") with
  | nil => rfl
  | cons t0 ts =>
    simp only []
    cases (fs.readdir (pjoin (pjoin (pjoin fs.homedir "Library") "Group Containers") t0)).filter
        (fun x => strStarts x "ThingsData-") with
    | nil => rfl
    | cons s0 srest => exact bestLoop_eq_pick fs hm _

/-- C3 (amended): under positive modification times, the source's path
resolution equals the spec-worded three-branch resolution with strict
precedence and first-seen-max-mtime selection among validated candidates,
and the constructor publishes exactly the resolved path or fails with the
terminal error. -/
theorem C3_resolution_amended (fs : FileSys) (cfg dir : Option String)
    (hm : ∀ q : String, 0 < fs.mtimeMs q) :
    resolveDbPath fs cfg dir = specResolveDbPath fs cfg dir ∧
    (specResolveDbPath fs cfg dir = none →
      dbPathServiceMk fs cfg dir =
        .error "[DbPathService] No valid Things3 database path could be resolved.") ∧
    (∀ p, specResolveDbPath fs cfg dir = some p → dbPathServiceMk fs cfg dir = .ok p) := by
  have hmain : resolveDbPath fs cfg dir = specResolveDbPath fs cfg dir := by
    unfold resolveDbPath specResolveDbPath
    simp only [resolveConfigured_eq_spec fs, resolveDirectory_eq_spec fs hm,
      resolveFallback_eq_spec fs hm]
  refine ⟨hmain, ?_, ?_⟩
  · intro hnone
    unfold dbPathServiceMk
    rw [hmain, hnone]
  · intro p hp
    unfold dbPathServiceMk
    rw [hmain, hp]

/-- Counterexample to C3 as stated: with multiple matches that all pass
validation, the claim requires the most recently modified validated
candidate to be chosen, but the source's loop starts from `bestTime = 0`
with a strict comparison and so selects nothing when every validated
candidate has modification time 0 — resolution fails terminally although
validated candidates exist. -/
theorem C3_resolution_counterexample :
    isUsableSQLiteFile fsCexC3 "/data/ThingsData-A/main.sqlite" = true ∧
    isUsableSQLiteFile fsCexC3 "/data/ThingsData-B/main.sqlite" = true ∧
    specResolveDbPath fsCexC3 none (some "/data") = some "/data/ThingsData-A/main.sqlite" ∧
    resolveDbPath fsCexC3 none (some "/data") = none ∧
    resolveDbPath fsCexC3 none (some "/data") ≠ specResolveDbPath fsCexC3 none (some "/data") ∧
    dbPathServiceMk fsCexC3 none (some "/data") =
      .error "[DbPathService] No valid Things3 database path could be resolved." := by
  refine ⟨by decide, by decide, by decide, by decide, by decide, ?_⟩
  rfl

/-- Witness for the amended C3 at a concrete filesystem. -/
theorem C3_resolution_amended_witness :
    resolveDbPath wfsC3 none (some "/data") = specResolveDbPath wfsC3 none (some "/data") ∧
    resolveDbPath wfsC3 none (some "/data") = some "/data/ThingsData-A/main.sqlite" :=
  ⟨(C3_resolution_amended wfsC3 none (some "/data")
      (fun q => by show (0 : Nat) < 5; decide)).1, by decide⟩

/-! ## C8 -/

theorem map_setkey_id {α : Type} (l : List (Nat × α)) (r : Nat) (o : α)
    (hl : ∀ kv ∈ l, kv.1 ≠ r) :
    l.map (fun kv => if kv.1 == r then (r, o) else kv) = l := by
  induction l with
  | nil => rfl
  | cons kv t ih =>
    have h1 : ¬ (kv.1 == r) = true := by simp [hl kv (by simp)]
    simp only [List.map_cons, h1, if_neg, Bool.false_eq_true, not_false_eq_true, if_false]
    rw [ih (fun kv hk => hl kv (by simp [hk]))]

/-- Mutating the top-level object returned by `getAll` does not change the
mapping reachable from the service's own cache object. -/
theorem lookupObj_setObj_fresh (h : ObjHeap) (ca : Nat) (hca : ca < h.next)
    (hwf : ∀ kv ∈ h.objs, kv.1 < h.next) (o : List (String × Nat)) :
    lookupObj (setObj (svcGetAll h ca).1 (svcGetAll h ca).2 o) ca =
      lookupObj (svcGetAll h ca).1 ca := by
  have hne : ¬ (h.next == ca) = true := by simp; omega
  simp only [svcGetAll, setObj, lookupObj, List.map_cons, beq_self_eq_true, if_pos,
    List.find?_cons, hne]
  rw [map_setkey_id _ _ _ (fun kv hk => by have := hwf kv hk; omega)]

theorem lookupEnt_setObj (h : ObjHeap) (a : Nat) (o : List (String × Nat)) (b : Nat) :
    lookupEnt (setObj h a o) b = lookupEnt h b := rfl

/-- C8 (amended): `getAll` hands out a fresh top-level object holding the
same mapping, and caller mutations that add, replace or delete entries on
that object leave the service's own mapping — as observed by `has` and by
what `save` serialises — unchanged.  (Nested entry objects are shared: see
the counterexample.) -/
theorem C8_getAll_top_level_copy (h : ObjHeap) (ca : Nat) (hca : ca < h.next)
    (hwf : ∀ kv ∈ h.objs, kv.1 < h.next) :
    ((svcGetAll h ca).2 = ca → False) ∧
    lookupObj (svcGetAll h ca).1 (svcGetAll h ca).2 = lookupObj h ca ∧
    (∀ k v, svcSerialize (callerSetKey (svcGetAll h ca).1 (svcGetAll h ca).2 k v) ca =
        svcSerialize (svcGetAll h ca).1 ca) ∧
    (∀ k v u, svcHas (callerSetKey (svcGetAll h ca).1 (svcGetAll h ca).2 k v) ca u =
        svcHas (svcGetAll h ca).1 ca u) ∧
    (∀ k, svcSerialize (callerDeleteKey (svcGetAll h ca).1 (svcGetAll h ca).2 k) ca =
        svcSerialize (svcGetAll h ca).1 ca) ∧
    (∀ k u, svcHas (callerDeleteKey (svcGetAll h ca).1 (svcGetAll h ca).2 k) ca u =
        svcHas (svcGetAll h ca).1 ca u) := by
  refine ⟨fun he => by simp [svcGetAll] at he; omega, ?_, ?_, ?_, ?_, ?_⟩
  · have hne : ¬ (h.next == ca) = true := by simp; omega
    simp [svcGetAll, lookupObj, List.find?_cons, hne]
  · intro k v
    unfold callerSetKey svcSerialize
    rw [lookupObj_setObj_fresh h ca hca hwf]
    rfl
  · intro k v u
    unfold callerSetKey svcHas
    rw [lookupObj_setObj_fresh h ca hca hwf]
  · intro k
    unfold callerDeleteKey svcSerialize
    rw [lookupObj_setObj_fresh h ca hca hwf]
    rfl
  · intro k u
    unfold callerDeleteKey svcHas
    rw [lookupObj_setObj_fresh h ca hca hwf]

/-- Counterexample to C8 as stated: the copy returned by `getAll` is
shallow, so mutating the nested per-identifier entry object reachable
through it changes what the service subsequently serialises in `save`. -/
theorem C8_getAll_counterexample :
    (let h0 : ObjHeap := ⟨[], [], 0⟩
     let p1 := svcNew h0
     let h2 := svcAdd p1.1 p1.2 "foo" ⟨"2025-12-12T00:00:00.000Z", "foo.md"⟩
     let p3 := svcGetAll h2 p1.2
     let eAddr := (((lookupObj p3.1 p3.2).find? (fun kv => kv.1 == "foo")).map
       (fun kv => kv.2)).getD 99
     let h4 := callerMutateEntry p3.1 eAddr ⟨"2025-12-12T00:00:00.000Z", "mutated.md"⟩
     svcSerialize p3.1 p1.2 = [("foo", ⟨"2025-12-12T00:00:00.000Z", "foo.md"⟩)] ∧
     svcSerialize h4 p1.2 = [("foo", ⟨"2025-12-12T00:00:00.000Z", "mutated.md"⟩)] ∧
     svcSerialize h4 p1.2 ≠ svcSerialize p3.1 p1.2 ∧
     svcHas h4 p1.2 "foo" = true) := by
  decide

/-- Witness for the amended C8 at a concrete heap. -/
theorem C8_getAll_top_level_copy_witness :
    svcSerialize (callerSetKey (svcGetAll whC8 0).1 (svcGetAll whC8 0).2 "bar" 7) 0 =
      svcSerialize (svcGetAll whC8 0).1 0 :=
  (C8_getAll_top_level_copy whC8 0 (by decide) (by decide)).2.2.1 "bar" 7

/-! ## C10 -/

/-- C10: every `runImporter` run that reaches the end of its record loop —
i.e. resolution and open both succeeded, whatever the records — writes the
exported database image back to the resolved path exactly once, even with
zero eligible records; runs that abort earlier write nothing, and
`rebuildCacheOnly` never writes the database file. -/
theorem C10_db_write_once (fs : FileSys) (env : VaultEnv) (settings : Settings)
    (openDb : String → Option (List TaskRec)) (st0 : WState) :
    (∀ p rows, dbPathServiceMk fs (some settings.databasePath) none = .ok p →
       openDb p = some rows →
       (runImporter fs env settings openDb st0).dbWrites = [p]) ∧
    (∀ p, dbPathServiceMk fs (some settings.databasePath) none = .ok p → openDb p = none →
       (runImporter fs env settings openDb st0).dbWrites = []) ∧
    (∀ e, dbPathServiceMk fs (some settings.databasePath) none = .error e →
       (runImporter fs env settings openDb st0).dbWrites = []) ∧
    (rebuildCacheOnly fs env settings openDb st0).dbWrites = [] := by
  refine ⟨?_, ?_, ?_, ?_⟩
  · intro p rows h1 h2
    simp [runImporter, h1, h2]
  · intro p h1 h2
    simp [runImporter, h1, h2]
  · intro e h1
    simp [runImporter, h1]
  · unfold rebuildCacheOnly
    cases hmk : dbPathServiceMk fs (some settings.databasePath) none with
    | error e => rfl
    | ok p =>
      cases hdb : openDb p with
      | none => simp [hdb]
      | some rows => simp [hdb]

/-- Witness for C10: even a run that writes zero notes saves the database
file exactly once, and the rebuild writes it never. -/
theorem C10_db_write_once_witness :
    (runImporter wfsC10 ⟨fun _ => true, fun _ => true, "t"⟩ ⟨"/db.sqlite", ""⟩
        (fun _ => some []) ⟨[], [], []⟩).dbWrites = ["/db.sqlite"] ∧
    (rebuildCacheOnly wfsC10 ⟨fun _ => true, fun _ => true, "t"⟩ ⟨"/db.sqlite", ""⟩
        (fun _ => some []) ⟨[], [], []⟩).dbWrites = [] :=
  ⟨(C10_db_write_once wfsC10 ⟨fun _ => true, fun _ => true, "t"⟩ ⟨"/db.sqlite", ""⟩
      (fun _ => some []) ⟨[], [], []⟩).1 "/db.sqlite" [] rfl rfl,
   (C10_db_write_once wfsC10 ⟨fun _ => true, fun _ => true, "t"⟩ ⟨"/db.sqlite", ""⟩
      (fun _ => some []) ⟨[], [], []⟩).2.2.2⟩

/-! ## C7 -/

theorem keepFilenameChar_eq :
    keepFilenameChar = (fun c => c.isAlphanum || (c == '-' || (c == '_' || c == ' '))) := by
  funext c
  simp [keepFilenameChar, Char.isAlphanum, Bool.or_assoc]

theorem sanitizeTitle_eq_spec (t : String) : sanitizeTitle t = specSanitizeTitle t := by
  simp [sanitizeTitle, specSanitizeTitle, keepFilenameChar_eq]

/-- C7 (amended): the derived path equals the spec-worded derivation in
which the sanitised title keeps hyphens, underscores and spaces besides
alphanumerics, and the date stamp comes from the creation date whenever
that field is present (even when it converts to no stamp), else from the
start date. -/
theorem C7_filename_amended (row : TaskRec) (settings : Settings) :
    prepareFilePath row settings = specFilePathAmended row settings := by
  have hbase : (if !(row.title == "") && decide (0 < (jsTrim row.title).length)
      then row.title else "Untitled") =
      (if jsTrim row.title == "" then "Untitled" else row.title) := by
    by_cases h : jsTrim row.title = ""
    · have h0 : (jsTrim row.title).length = 0 := by rw [h]; rfl
      simp [h, h0]
    · have hne : trimChars row.title.data ≠ [] := by
        intro hc
        exact h ((string_mk_eq_empty_iff _).mpr hc)
      have hlen : 0 < (jsTrim row.title).length := by
        have he : (jsTrim row.title).length = (trimChars row.title.data).length := rfl
        rw [he]
        cases hl : trimChars row.title.data with
        | nil => exact absurd hl hne
        | cons a l => simp
      have htit : ¬ row.title = "" := by
        intro ht
        apply h
        rw [ht]
        rfl
      simp [h, htit, hlen]
  have hds : (if truthyNum row.creationDate then getYYYYMMDD row.creationDate
      else if truthyNum row.startDate then getYYYYMMDD row.startDate else "") =
      specDateStamp row := rfl
  simp only [prepareFilePath, specFilePathAmended, specFileName]
  rw [hds, hbase, sanitizeTitle_eq_spec]
  by_cases hd : specDateStamp row = "" <;> by_cases hf : settings.destinationFolder = "" <;>
    simp [hd, hf, normalizePath]

/-- Counterexample to C7 as stated, at two concrete records: a hyphen in the
title is not stripped although it is not alphanumeric, and a present but
unconvertible creation date suppresses the date stamp although the start
date would yield one. -/
theorem C7_filename_counterexample :
    (prepareFilePath ⟨"12345678", "a-b", "", none, none, none, none, 0,
        none, none, none, none⟩ ⟨"", ""⟩).filePath = "a-b_12345678.md" ∧
    (claimFilePath ⟨"12345678", "a-b", "", none, none, none, none, 0,
        none, none, none, none⟩ ⟨"", ""⟩).filePath = "ab_12345678.md" ∧
    (prepareFilePath ⟨"12345678", "a-b", "", none, none, none, none, 0,
        none, none, none, none⟩ ⟨"", ""⟩).filePath ≠
      (claimFilePath ⟨"12345678", "a-b", "", none, none, none, none, 0,
        none, none, none, none⟩ ⟨"", ""⟩).filePath ∧
    (prepareFilePath ⟨"87654321", "T", "", none, none, none, none, 0,
        some ⟨100, 1⟩, some ⟨132761088, 1⟩, none, none⟩ ⟨"", ""⟩).filePath = "T_87654321.md" ∧
    (claimFilePath ⟨"87654321", "T", "", none, none, none, none, 0,
        some ⟨100, 1⟩, some ⟨132761088, 1⟩, none, none⟩ ⟨"", ""⟩).filePath =
      "20251212_T_87654321.md" ∧
    (prepareFilePath ⟨"87654321", "T", "", none, none, none, none, 0,
        some ⟨100, 1⟩, some ⟨132761088, 1⟩, none, none⟩ ⟨"", ""⟩).filePath ≠
      (claimFilePath ⟨"87654321", "T", "", none, none, none, none, 0,
        some ⟨100, 1⟩, some ⟨132761088, 1⟩, none, none⟩ ⟨"", ""⟩).filePath := by
  decide

end Things3

